import Mathlib

deriving instance DecidableEq for Except

namespace Sem6000

/-! Shallow embedding of the SEM6000 BLE protocol client: the frame
unwrap and payload dispatch of `sem6000/parser.py` and the reassembly
and transaction engine of `sem6000/sem6000.py`. Bytes are modelled as
`Nat`, byte strings as `List Nat`, Python slices via `sliceL`. -/

/-- Python slice `data[a:b]` for nonnegative bounds. -/
def sliceL (data : List Nat) (a b : Nat) : List Nat :=
  (data.drop a).take (b - a)

/-- Python slice `data[-2:]`. -/
def lastTwo (data : List Nat) : List Nat :=
  data.drop (data.length - 2)

/-- Python `int.from_bytes(data, "big")`. -/
def int_from_bytes_be (data : List Nat) : Nat :=
  data.foldl (fun acc b => 256 * acc + b) 0

/-- Errors raised by `MessageParser` and the reassembler. -/
inductive ParseError
  | invalidResponse
  | invalidChecksum (actual received : Nat)
  | invalidSuffix (suffix : List Nat)
  | invalidPayloadLength (expected actual : Nat)
  | unsupportedMessage
  | indexOutOfRange
  | incompleteData
deriving Repr, DecidableEq

/-- A decoded on-device schedule rule (`message.Scheduler`). -/
structure Scheduler where
  is_active : Bool
  is_action_turn_on : Bool
  repeat_on_weekdays : List Nat
  year : Nat
  month : Nat
  day : Nat
  hour : Nat
  minute : Nat
deriving Repr, DecidableEq

/-- A slot of a scheduler page (`message.SchedulerEntry`). -/
structure SchedulerEntry where
  slot_id : Nat
  scheduler : Scheduler
deriving Repr, DecidableEq

/-- The typed results produced by `MessageParser.parse`. -/
inductive Notification
  | authorization (was_successful : Bool)
  | changePin (was_successful : Bool)
  | resetPin (was_successful : Bool)
  | powerSwitch (was_successful : Bool)
  | ledSwitch (was_successful : Bool)
  | syncDateTime (was_successful : Bool)
  | requestedSettings (is_reduced_period : Bool) (normal_price_in_cent : Nat)
      (reduced_period_price_in_cent : Nat) (reduced_period_start_time_in_minutes : Nat)
      (reduced_period_end_time_in_minutes : Nat) (is_led_active : Bool)
      (power_limit_in_watt : Nat)
  | powerLimitSet (was_successful : Bool)
  | pricesSet (was_successful : Bool)
  | reducedPeriodSet (was_successful : Bool)
  | requestedTimerStatus (is_timer_running : Bool) (is_action_turn_on : Bool)
      (target_year target_month target_day target_hour target_minute target_second : Nat)
      (original_timer_length_in_seconds : Nat)
  | timerSet (was_successful : Bool)
  | schedulerRequested (number_of_schedulers : Nat) (scheduler_entries : List SchedulerEntry)
  | schedulerSet (was_successful : Bool)
  | randomModeStatus (is_active : Bool) (active_on_weekdays : List Nat)
      (start_hour start_minute end_hour end_minute : Nat)
  | randomModeSet (was_successful : Bool)
  | measurement (is_power_active : Bool) (power_in_milliwatt voltage_in_volt
      current_in_milliampere frequency_in_hertz total_consumption_in_kilowatt_hour : Nat)
  | consumption12Months (consumption_n_months_ago_in_watt_hour : List (Option Nat))
  | consumption30Days (consumption_n_days_ago_in_watt_hour : List (Option Nat))
  | consumption23Hours (consumption_n_hours_ago_in_watt_hour : List (Option Nat))
  | resetConsumption (was_successful : Bool)
  | factoryReset (was_successful : Bool)
  | deviceNameSet (was_successful : Bool)
  | deviceSerial (serial : List Nat)
deriving Repr, DecidableEq

/-- `MessageParser._parse_payload`: unwraps the outer frame (header byte
0x0f, length byte, payload, checksum byte, optional 0xff 0xff suffix). -/
def parse_payload (data : List Nat) : Except ParseError (List Nat) :=
  if sliceL data 0 1 ≠ [0x0f] then .error ParseError.invalidResponse
  else
    match data[1]? with
    | none => .error ParseError.indexOutOfRange
    | some length_of_payload =>
      match data[2 + length_of_payload - 1]? with
      | none => .error ParseError.indexOutOfRange
      | some checksum_received =>
        if checksum_received ≠ (1 + (sliceL data 2 (2 + length_of_payload - 1)).sum) % 256 then
          .error (ParseError.invalidChecksum
            ((1 + (sliceL data 2 (2 + length_of_payload - 1)).sum) % 256) checksum_received)
        else if data.length > 2 + length_of_payload then
          if data.drop (2 + length_of_payload) ≠ [0xff, 0xff] then
            .error (ParseError.invalidSuffix (data.drop (2 + length_of_payload)))
          else .ok (sliceL data 2 (2 + length_of_payload - 1))
        else .ok (sliceL data 2 (2 + length_of_payload - 1))

/-- `MessageParser._parse_scheduler`: decodes one 8-byte scheduler body.
`nowYear` stands for `datetime.datetime.now().year`. -/
def parse_scheduler (nowYear : Nat) (data : List Nat) : Scheduler :=
  { is_active := decide (sliceL data 0 1 = [0x01])
    is_action_turn_on := decide (sliceL data 1 2 = [0x01])
    repeat_on_weekdays :=
      (List.range 7).filter (fun w => Nat.testBit (int_from_bytes_be (sliceL data 2 3)) w)
    year := int_from_bytes_be (sliceL data 3 4) + (nowYear - nowYear % 100)
    month := int_from_bytes_be (sliceL data 4 5)
    day := int_from_bytes_be (sliceL data 5 6)
    hour := int_from_bytes_be (sliceL data 6 7)
    minute := int_from_bytes_be (sliceL data 7 8) }

/-- The `10 00` (requested settings) branch of `MessageParser.parse`. -/
def parse_settings (payload : List Nat) : Except ParseError Notification :=
  if payload.length ≠ 13 then .error (ParseError.invalidPayloadLength 13 payload.length)
  else .ok (.requestedSettings (decide (sliceL payload 2 3 = [0x01]))
    (int_from_bytes_be (sliceL payload 3 4)) (int_from_bytes_be (sliceL payload 4 5))
    (int_from_bytes_be (sliceL payload 5 7)) (int_from_bytes_be (sliceL payload 7 9))
    (decide (sliceL payload 9 10 = [0x01])) (int_from_bytes_be (sliceL payload 11 13)))

/-- The `09 00` (requested timer status) branch of `MessageParser.parse`. -/
def parse_timer_status (payload : List Nat) : Except ParseError Notification :=
  if payload.length ≠ 13 then .error (ParseError.invalidPayloadLength 13 payload.length)
  else .ok (.requestedTimerStatus (decide (¬ sliceL payload 2 3 = [0x00]))
    (decide (sliceL payload 2 3 = [0x01]))
    (int_from_bytes_be (sliceL payload 8 9)) (int_from_bytes_be (sliceL payload 7 8))
    (int_from_bytes_be (sliceL payload 6 7)) (int_from_bytes_be (sliceL payload 5 6))
    (int_from_bytes_be (sliceL payload 4 5)) (int_from_bytes_be (sliceL payload 3 4))
    (int_from_bytes_be (sliceL payload 9 12)))

/-- The `14 00` (scheduler page) branch of `MessageParser.parse`. The
per-entry checksum the source computes is only printed on mismatch, so it
does not influence the decoded value. -/
def parse_scheduler_page (nowYear : Nat) (payload : List Nat) : Except ParseError Notification :=
  if payload.length < 3 then .error (ParseError.invalidPayloadLength 3 payload.length)
  else if (payload.length - 3) % 12 ≠ 0 then
    .error (ParseError.invalidPayloadLength
      (payload.length + 12 - (payload.length - 3) % 12) payload.length)
  else
    .ok (.schedulerRequested (int_from_bytes_be (sliceL payload 2 3))
      ((List.range ((payload.length - 3) / 12)).map (fun i =>
        SchedulerEntry.mk (int_from_bytes_be (sliceL payload (3 + 12 * i) (4 + 12 * i)))
          (parse_scheduler nowYear (sliceL payload (4 + 12 * i) (12 + 12 * i))))))

/-- The `16 00` (random mode status) branch of `MessageParser.parse`. -/
def parse_random_mode_status (payload : List Nat) : Except ParseError Notification :=
  .ok (.randomModeStatus (decide (sliceL payload 2 3 = [0x01]))
    ((List.range 7).filter (fun w => Nat.testBit (int_from_bytes_be (sliceL payload 3 4)) w))
    (int_from_bytes_be (sliceL payload 4 5)) (int_from_bytes_be (sliceL payload 5 6))
    (int_from_bytes_be (sliceL payload 6 7)) (int_from_bytes_be (sliceL payload 7 8)))

/-- The `04 00` (measurement) branch of `MessageParser.parse`. -/
def parse_measurement (payload : List Nat) : Except ParseError Notification :=
  .ok (.measurement (decide (sliceL payload 2 3 = [0x01]))
    (int_from_bytes_be (sliceL payload 3 6)) (int_from_bytes_be (sliceL payload 6 7))
    (int_from_bytes_be (sliceL payload 7 9)) (int_from_bytes_be (sliceL payload 9 10))
    (int_from_bytes_be (sliceL payload 12 16)))

/-- The `0c 00` (consumption of last 12 months) branch of
`MessageParser.parse`: 4-byte entries, decoded 3-byte big-endian, the
loop prepends each to the front (reversing the order), then a final
`None` is prepended for the current month. -/
def parse_consumption12 (payload : List Nat) : Except ParseError Notification :=
  .ok (.consumption12Months (none ::
    (((List.range ((payload.length - 2) / 4)).map (fun i =>
      some (int_from_bytes_be (sliceL payload (2 + 4 * i) (2 + 4 * i + 3))))).reverse)))

/-- The `0b 00` (consumption of last 30 days) branch of
`MessageParser.parse`: same layout as the 12-months reply, with a final
`None` prepended for today. -/
def parse_consumption30 (payload : List Nat) : Except ParseError Notification :=
  .ok (.consumption30Days (none ::
    (((List.range ((payload.length - 2) / 4)).map (fun i =>
      some (int_from_bytes_be (sliceL payload (2 + 4 * i) (2 + 4 * i + 3))))).reverse)))

/-- The `0a 00` (consumption of last 23 hours) branch of
`MessageParser.parse`: 2-byte entries, order reversed, and no `None`
prepended. -/
def parse_consumption23 (payload : List Nat) : Except ParseError Notification :=
  .ok (.consumption23Hours
    (((List.range ((payload.length - 2) / 2)).map (fun i =>
      some (int_from_bytes_be (sliceL payload (2 + 2 * i) (2 + 2 * (i + 1)))))).reverse))

/-- Third group of branches of the opcode dispatch of
`MessageParser.parse` (measurement onwards), in the source's order; the
final fallthrough is the unsupported-message failure. -/
def parse_dispatch_c (payload : List Nat) : Except ParseError Notification :=
  if sliceL payload 0 2 = [0x04, 0x00] then
    parse_measurement payload
  else if sliceL payload 0 2 = [0x0c, 0x00] then
    parse_consumption12 payload
  else if sliceL payload 0 2 = [0x0b, 0x00] then
    parse_consumption30 payload
  else if sliceL payload 0 2 = [0x0a, 0x00] then
    parse_consumption23 payload
  else if sliceL payload 0 3 = [0x0f, 0x00, 0x02] then
    .ok (.resetConsumption true)
  else if sliceL payload 0 3 = [0x0f, 0x00, 0x00] then
    .ok (.factoryReset true)
  else if sliceL payload 0 2 = [0x02, 0x00] then
    .ok (.deviceNameSet true)
  else if sliceL payload 0 2 = [0x11, 0x00] then
    .ok (.deviceSerial ((payload.drop 2).dropLast.dropLast))
  else .error ParseError.unsupportedMessage

/-- Second group of branches of the opcode dispatch of
`MessageParser.parse` (prices-set onwards), in the source's order,
falling through to `parse_dispatch_c`. -/
def parse_dispatch_b (nowYear : Nat) (payload : List Nat) : Except ParseError Notification :=
  if sliceL payload 0 3 = [0x0f, 0x00, 0x04] then
    if payload.length ≠ 4 then .error (ParseError.invalidPayloadLength 4 payload.length)
    else .ok (.pricesSet true)
  else if sliceL payload 0 3 = [0x0f, 0x00, 0x01] then
    if payload.length ≠ 4 then .error (ParseError.invalidPayloadLength 4 payload.length)
    else .ok (.reducedPeriodSet true)
  else if sliceL payload 0 2 = [0x09, 0x00] then
    parse_timer_status payload
  else if sliceL payload 0 2 = [0x08, 0x00] then
    if payload.length ≠ 3 then .error (ParseError.invalidPayloadLength 3 payload.length)
    else .ok (.timerSet true)
  else if sliceL payload 0 2 = [0x14, 0x00] then
    parse_scheduler_page nowYear payload
  else if sliceL payload 0 2 = [0x13, 0x00] then
    .ok (.schedulerSet (decide (sliceL payload 2 3 = [0x00])))
  else if sliceL payload 0 2 = [0x16, 0x00] then
    parse_random_mode_status payload
  else if sliceL payload 0 2 = [0x15, 0x00] then
    .ok (.randomModeSet (decide (sliceL payload 2 3 = [0x00])))
  else parse_dispatch_c payload

/-- The opcode dispatch of `MessageParser.parse`, applied to the already
unwrapped payload. Branches appear in the source's order; the single
if-chain of the source is split into three groups (this function,
`parse_dispatch_b`, `parse_dispatch_c`), each falling through to the
next, preserving first-match semantics. -/
def parse_dispatch (nowYear : Nat) (payload : List Nat) : Except ParseError Notification :=
  if sliceL payload 0 2 = [0x17, 0x00] ∧ sliceL payload 3 4 = [0x00] then
    if payload.length ≠ 5 then .error (ParseError.invalidPayloadLength 5 payload.length)
    else .ok (.authorization (decide (sliceL payload 2 3 = [0x00])))
  else if sliceL payload 0 2 = [0x17, 0x00] ∧ sliceL payload 3 4 = [0x01] then
    if payload.length ≠ 5 then .error (ParseError.invalidPayloadLength 5 payload.length)
    else .ok (.changePin (decide (sliceL payload 2 3 = [0x00])))
  else if sliceL payload 0 2 = [0x17, 0x00] ∧ sliceL payload 3 4 = [0x02] then
    if payload.length ≠ 5 then .error (ParseError.invalidPayloadLength 5 payload.length)
    else .ok (.resetPin (decide (sliceL payload 2 3 = [0x00])))
  else if sliceL payload 0 2 = [0x03, 0x00] then
    if payload.length ≠ 3 then .error (ParseError.invalidPayloadLength 3 payload.length)
    else .ok (.powerSwitch (decide (sliceL payload 2 3 = [0x00])))
  else if sliceL payload 0 3 = [0x0f, 0x00, 0x05] then
    if payload.length ≠ 4 then .error (ParseError.invalidPayloadLength 4 payload.length)
    else .ok (.ledSwitch true)
  else if sliceL payload 0 2 = [0x01, 0x00] then
    if payload.length ≠ 3 then .error (ParseError.invalidPayloadLength 3 payload.length)
    else .ok (.syncDateTime (decide (sliceL payload 2 3 = [0x00])))
  else if sliceL payload 0 2 = [0x10, 0x00] then
    parse_settings payload
  else if sliceL payload 0 3 = [0x05, 0x00, 0x00] ∧ payload.length = 3 then
    .ok (.powerLimitSet true)
  else parse_dispatch_b nowYear payload

/-- `MessageParser.parse`: unwrap then dispatch. -/
def parse (nowYear : Nat) (data : List Nat) : Except ParseError Notification :=
  match parse_payload data with
  | .error e => .error e
  | .ok payload => parse_dispatch nowYear payload

/-- The per-entry checksum `MessageParser.parse` computes for slot `i` of a
scheduler page: `(sum(payload[4+i*12:14+i*12]) + 0x14) & 0xff`. -/
def scheduler_entry_checksum (payload : List Nat) (i : Nat) : Nat :=
  ((sliceL payload (4 + 12 * i) (14 + 12 * i)).sum + 0x14) % 256

/-- The per-entry checksum byte received in slot `i` of a scheduler page:
`payload[14+i*12:15+i*12]`. -/
def scheduler_entry_checksum_received (payload : List Nat) (i : Nat) : Nat :=
  int_from_bytes_be (sliceL payload (14 + 12 * i) (15 + 12 * i))

/-- `SEM6000Delegate.has_final_raw_notification`: completion test over the
accumulated transport fragments. -/
def has_final_raw_notification (frags : List (List Nat)) : Bool :=
  match frags.getLast? with
  | none => false
  | some last =>
    if last.length < 2 then false
    else if sliceL last 2 4 = [0x04, 0x00] then true
    else decide (lastTwo last = [0xff, 0xff])

/-- Modelled from the spec: the completion predicate the spec states for
the reassembler, over the concatenation of all fragments — it ends with
the 2-byte terminator constant, or the already-seen bytes begin with the
Measurement opcode bytes `04 00`. -/
def completion_per_spec (frags : List (List Nat)) : Bool :=
  decide (lastTwo frags.flatten = [0xff, 0xff]) || decide (sliceL frags.flatten 0 2 = [0x04, 0x00])

/-- Errors of the transaction engine in `sem6000.py`. -/
inductive SemError
  | parseFailed (e : ParseError)
  | authenticationFailed
  | requestFailed (s : String)
  | nameError (s : String)
deriving Repr, DecidableEq

/-- `SEM6000Delegate.consume_notification`: concatenates the fragments,
fails if they are not complete or do not parse (leaving the fragment
buffer as is), and empties the buffer only on success. Returns the new
buffer together with the outcome. -/
def consume_notification (nowYear : Nat) (frags : List (List Nat)) :
    List (List Nat) × Except ParseError Notification :=
  if has_final_raw_notification frags then
    match parse nowYear frags.flatten with
    | .error e => (frags, .error e)
    | .ok n => ([], .ok n)
  else (frags, .error ParseError.incompleteData)

/-- `SEM6000Delegate.reset_notification_data`: clears the fragment buffer. -/
def reset_notification_data (_frags : List (List Nat)) : List (List Nat) := []

/-- `SEM6000.authorize`: state update of the remembered PIN driven by the
reply obtained through the delegate. `old_pin` is the session PIN before
the call; the first component of the result is the session PIN after it. -/
def authorize (nowYear : Nat) (old_pin : Option Nat) (pin : Nat)
    (frags : List (List Nat)) : Option Nat × Except SemError Notification :=
  match (consume_notification nowYear frags).2 with
  | .error e => (old_pin, .error (SemError.parseFailed e))
  | .ok n =>
    match n with
    | .authorization was_successful =>
      if was_successful then (some pin, .ok (.authorization was_successful))
      else (none, .error SemError.authenticationFailed)
    | _ => (old_pin, .error SemError.authenticationFailed)

/-- The page loop of `SEM6000.request_scheduler`: fetches the given page
numbers in order, extending the accumulated entries, and aborts on the
first reply that is not a `SchedulerRequestedNotification`. Returns the
pages actually requested together with the outcome. -/
def request_scheduler_loop (reply : Nat → Notification) (acc : List SchedulerEntry) :
    List Nat → List Nat × Except SemError (List SchedulerEntry)
  | [] => ([], .ok acc)
  | p :: rest =>
    match reply p with
    | .schedulerRequested _ es =>
      match request_scheduler_loop reply (acc ++ es) rest with
      | (tr, r) => (p :: tr, r)
    | _ => ([p], .error (SemError.requestFailed "Request scheduler 2nd page failed"))

/-- `SEM6000.request_scheduler` against a reply oracle giving the
notification decoded for each requested page. The first reply fixes
`number_of_schedulers = n`; the loop then fetches pages `1 .. n / 4`.
Returns the pages requested together with the outcome. -/
def request_scheduler (reply : Nat → Notification) :
    List Nat × Except SemError (Nat × List SchedulerEntry) :=
  match reply 0 with
  | .schedulerRequested n es =>
    match request_scheduler_loop reply es ((List.range (n / 4)).map (fun p => p + 1)) with
    | (tr, .ok entries) => (0 :: tr, .ok (n, entries))
    | (tr, .error e) => (0 :: tr, .error e)
  | _ => ([0], .error (SemError.requestFailed "Request scheduler 1st page failed"))

/-- Observable steps of `SEM6000._send_command` and `SEM6000._reconnect`. -/
inductive Action
  | reset
  | connect
  | authorizeCmd
  | writeCmd
deriving Repr, DecidableEq

/-- The session facts `_send_command` branches on: the transport state at
the `_is_connected` check, whether a device address and a PIN are
remembered, and whether the transport connect and the re-authorization
inside `_reconnect` succeed. -/
structure Env where
  connected : Bool
  hasAddr : Bool
  hasPin : Bool
  connect_ok : Bool
  auth_ok : Bool
deriving Repr, DecidableEq

/-- `SEM6000._reconnect`: one transport connect, then — when a PIN is
remembered — one re-authorization; either failure aborts. Returns the
trace of steps and whether the reconnect succeeded. -/
def reconnect_run (e : Env) : List Action × Bool :=
  if e.connect_ok then
    if e.hasPin then
      if e.auth_ok then ([Action.connect, Action.authorizeCmd], true)
      else ([Action.connect, Action.authorizeCmd], false)
    else ([Action.connect], true)
  else ([Action.connect], false)

/-- `SEM6000._send_command`: resets the fragment buffer, reconnects once
when the transport is down and an address and PIN are remembered, then
writes the encoded command. Returns the trace of steps and whether the
command was written. -/
def send_command_run (e : Env) : List Action × Bool :=
  if e.connected then ([Action.reset, Action.writeCmd], true)
  else if e.hasAddr && e.hasPin then
    match reconnect_run e with
    | (tr, true) => ([Action.reset] ++ tr ++ [Action.writeCmd], true)
    | (tr, false) => ([Action.reset] ++ tr, false)
  else ([Action.reset], false)

/-- A Python `datetime.datetime` value. -/
structure PyDateTime where
  year : Nat
  month : Nat
  day : Nat
  hour : Nat
  minute : Nat
  second : Nat
deriving Repr, DecidableEq

/-- The command `SEM6000.edit_scheduler` would construct. -/
structure EditSchedulerCmd where
  slot_id : Int
  scheduler : Scheduler
deriving Repr, DecidableEq

/-- The command construction of `SEM6000.edit_scheduler`, with the Python
helpers (`datetime.datetime.fromisoformat`, the `datetime.datetime`
constructor, `int`, `util._parse_boolean`) abstracted as parameters, in
the source's evaluation order. The final step looks up the name `tuil`
(a misspelling of `util` in the source), which is undefined, so a
NameError is raised before the command is ever completed. -/
def edit_scheduler_build (fromiso : String → Except SemError PyDateTime)
    (mk_dt : Nat → Nat → Nat → Nat → Nat → Except SemError PyDateTime)
    (to_int : String → Except SemError Int)
    (parse_boolean : String → Except SemError Bool)
    (slot_id is_active is_action_turn_on isodatetime : String) :
    Except SemError EditSchedulerCmd :=
  match fromiso isodatetime with
  | .error e => .error e
  | .ok dt =>
    match mk_dt (dt.year % 100) dt.month dt.day dt.hour dt.minute with
    | .error e => .error e
    | .ok _date_time =>
      match to_int slot_id with
      | .error e => .error e
      | .ok _slot =>
        match parse_boolean is_active with
        | .error e => .error e
        | .ok _act =>
          match parse_boolean is_action_turn_on with
          | .error e => .error e
          | .ok _on => .error (SemError.nameError "tuil")

/-- `SEM6000.edit_scheduler`: builds the command, and only on success
sends it (one transport write) and checks the reply. The first component
counts transport writes performed. -/
def edit_scheduler (fromiso : String → Except SemError PyDateTime)
    (mk_dt : Nat → Nat → Nat → Nat → Nat → Except SemError PyDateTime)
    (to_int : String → Except SemError Int)
    (parse_boolean : String → Except SemError Bool)
    (reply : Notification)
    (slot_id is_active is_action_turn_on _repeat_on_weekdays isodatetime : String) :
    Nat × Except SemError Notification :=
  match edit_scheduler_build fromiso mk_dt to_int parse_boolean
      slot_id is_active is_action_turn_on isodatetime with
  | .error e => (0, .error e)
  | .ok _cmd =>
    match reply with
    | .schedulerSet true => (1, .ok (.schedulerSet true))
    | _ => (1, .error (SemError.requestFailed "Edit scheduler failed"))

/-! List and slice helper lemmas. -/

theorem take_len_append (l1 l2 : List Nat) : (l1 ++ l2).take l1.length = l1 := by
  induction l1 with
  | nil => rfl
  | cons a t ih => simp [ih]

theorem take_append_le (l1 l2 : List Nat) (n : Nat) (h : n ≤ l1.length) :
    (l1 ++ l2).take n = l1.take n := by
  induction l1 generalizing n with
  | nil => simp at h; simp [h]
  | cons a t ih =>
    cases n with
    | zero => rfl
    | succ m => simp [ih m (by simpa using h)]

theorem drop_len_add (l1 l2 : List Nat) (n : Nat) :
    (l1 ++ l2).drop (l1.length + n) = l2.drop n := by
  induction l1 with
  | nil => simp
  | cons a t ih =>
    have h : (a :: t).length + n = (t.length + n) + 1 := by simp; omega
    simp only [List.cons_append, h, List.drop_succ_cons]
    exact ih

theorem drop_append_le (l1 l2 : List Nat) (n : Nat) (h : n ≤ l1.length) :
    (l1 ++ l2).drop n = l1.drop n ++ l2 := by
  induction l1 generalizing n with
  | nil => simp at h; simp [h]
  | cons a t ih =>
    cases n with
    | zero => rfl
    | succ m => simp [ih m (by simpa using h)]

theorem getElem?_append_len (l1 : List Nat) (c : Nat) (l2 : List Nat) :
    (l1 ++ c :: l2)[l1.length]? = some c := by
  induction l1 with
  | nil => simp
  | cons a t ih => simpa using ih

theorem getLast?_append_one (pre : List (List Nat)) (last : List Nat) :
    (pre ++ [last]).getLast? = some last := by
  simp [List.getLast?_append]

theorem flatten_length_const (w : Nat) (blocks : List (List Nat))
    (h : ∀ b ∈ blocks, b.length = w) : blocks.flatten.length = w * blocks.length := by
  induction blocks with
  | nil => simp
  | cons b t ih =>
    have hb : b.length = w := h b (List.mem_cons_self b t)
    have ht := ih (fun x hx => h x (List.mem_cons_of_mem _ hx))
    simp only [List.flatten_cons, List.length_append, List.length_cons, hb, ht, Nat.mul_succ]
    omega

theorem sliceL_zero (l : List Nat) (k : Nat) : sliceL l 0 k = l.take k := by
  simp [sliceL]

theorem sliceL_cons2 (a b : Nat) (l : List Nat) (m k : Nat) :
    sliceL (a :: b :: l) (2 + m) (2 + k) = sliceL l m k := by
  unfold sliceL
  have h1 : 2 + m = m + 2 := by omega
  have h2 : 2 + k - (2 + m) = k - m := by omega
  rw [h2, h1]
  rfl

theorem sliceL_cons3 (a b c : Nat) (l : List Nat) (m k : Nat) :
    sliceL (a :: b :: c :: l) (3 + m) (3 + k) = sliceL l m k := by
  unfold sliceL
  have h1 : 3 + m = m + 3 := by omega
  have h2 : 3 + k - (3 + m) = k - m := by omega
  rw [h2, h1]
  rfl

theorem sliceL_skip_block (b J : List Nat) (w : Nat) (hb : b.length = w) (m k : Nat) :
    sliceL (b ++ J) (w + m) (w + k) = sliceL J m k := by
  unfold sliceL
  have h2 : w + k - (w + m) = k - m := by omega
  rw [h2, ← hb, drop_len_add]

theorem int_from_bytes_be_single (n : Nat) : int_from_bytes_be [n] = n := by
  simp [int_from_bytes_be]

/-! Claim theorems. -/

/-- C3 counterexample: the fragments `[ff]`, `[ff]` concatenate to
`ff ff`, which ends with the terminator, so the claim's completion
predicate holds; yet `has_final_raw_notification` is false because it
only inspects the last fragment, whose length is below 2. The same
concatenation delivered as a single fragment is recognized as complete,
so completion is not independent of how the reply is fragmented. -/
theorem c3_counterexample :
    completion_per_spec [[0xff], [0xff]] = true ∧
    has_final_raw_notification [[0xff], [0xff]] = false ∧
    has_final_raw_notification [[0xff, 0xff]] = true := by
  decide

/-- C3 (amended): the completion predicate inspects only the final
fragment: it holds exactly when the final fragment has at least 2 bytes
and either carries the Measurement opcode bytes 04 00 at offsets 2..3 or
ends with the terminator ff ff; it is therefore not invariant under
re-fragmentation of the same logical reply. -/
theorem c3_completion_last_fragment_only (pre : List (List Nat)) (last : List Nat) :
    has_final_raw_notification (pre ++ [last]) = true ↔
      2 ≤ last.length ∧ (sliceL last 2 4 = [0x04, 0x00] ∨ lastTwo last = [0xff, 0xff]) := by
  unfold has_final_raw_notification
  simp only [getLast?_append_one]
  by_cases h2 : last.length < 2
  · rw [if_pos h2]
    constructor
    · intro h; exact absurd h (by simp)
    · intro h; exact absurd h.1 (by omega)
  · by_cases h4 : sliceL last 2 4 = [0x04, 0x00]
    · rw [if_neg h2, if_pos h4]
      constructor
      · intro _; exact ⟨by omega, Or.inl h4⟩
      · intro _; rfl
    · rw [if_neg h2, if_neg h4, decide_eq_true_eq]
      constructor
      · intro h; exact ⟨by omega, Or.inr h⟩
      · rintro ⟨-, h | h⟩
        · exact absurd h h4
        · exact h

/-- C4: a frame whose checksum byte differs from `(1 + sum payload) % 256`
is rejected by `_parse_payload` with a checksum-mismatch error and no
payload is returned, for every payload length (including 0) and any
trailing bytes. -/
theorem c4_checksum_mismatch_rejected (payload : List Nat) (c : Nat) (suffix : List Nat)
    (_hlen : payload.length + 1 < 256) (_hc : c < 256)
    (_hbytes : ∀ b ∈ payload, b < 256)
    (hbad : c ≠ (1 + payload.sum) % 256) :
    parse_payload (0x0f :: (payload.length + 1) :: (payload ++ c :: suffix)) =
      .error (ParseError.invalidChecksum ((1 + payload.sum) % 256) c) := by
  have h0 : sliceL (0x0f :: (payload.length + 1) :: (payload ++ c :: suffix)) 0 1 = [0x0f] := rfl
  have h1 : (0x0f :: (payload.length + 1) :: (payload ++ c :: suffix))[1]? =
      some (payload.length + 1) := by simp
  have harith : 2 + (payload.length + 1) - 1 = payload.length + 2 := by omega
  have h2 : (0x0f :: (payload.length + 1) :: (payload ++ c :: suffix))[payload.length + 2]? =
      some c := by
    simp only [List.getElem?_cons_succ]
    exact getElem?_append_len payload c suffix
  have h3 : sliceL (0x0f :: (payload.length + 1) :: (payload ++ c :: suffix)) 2
      (payload.length + 2) = payload := by
    show (payload ++ c :: suffix).take payload.length = payload
    exact take_len_append payload (c :: suffix)
  simp only [parse_payload, h0, harith, h1, h2, h3]
  simp [hbad]

/-- C4 witness: the frame `0f 03 01 02 aa` carries payload `01 02` whose
checksum should be 4, not 0xaa, so it is rejected. -/
theorem c4_witness :
    parse_payload [0x0f, 3, 1, 2, 0xaa] = .error (ParseError.invalidChecksum 4 0xaa) :=
  c4_checksum_mismatch_rejected [1, 2] 0xaa [] (by decide) (by decide) (by decide) (by decide)

/-- C6: when the transport is found disconnected at `_send_command` and a
device address and PIN are remembered, the engine performs exactly one
reconnect and one re-authorization step; when they succeed the original
command write happens after them, when they fail the command is not
written; and no run of `_send_command` ever performs more than one
reconnect step or more than one command write. -/
theorem c6_single_reconnect (e : Env) (hconn : e.connected = false)
    (haddr : e.hasAddr = true) (hpin : e.hasPin = true) :
    ((send_command_run e).1.count Action.connect = 1 ∧
     (send_command_run e).1.count Action.authorizeCmd ≤ 1 ∧
     (e.connect_ok = true → (send_command_run e).1.count Action.authorizeCmd = 1)) ∧
    ((send_command_run e).2 = true →
      (send_command_run e).1 =
        [Action.reset, Action.connect, Action.authorizeCmd, Action.writeCmd]) ∧
    ((send_command_run e).2 = false → (send_command_run e).1.count Action.writeCmd = 0) ∧
    (∀ f : Env, (send_command_run f).1.count Action.connect ≤ 1 ∧
      (send_command_run f).1.count Action.writeCmd ≤ 1) := by
  obtain ⟨c, a, p, co, ao⟩ := e
  simp only at hconn haddr hpin
  subst hconn; subst haddr; subst hpin
  refine ⟨?_, ?_, ?_, ?_⟩
  · cases co <;> cases ao <;> decide
  · cases co <;> cases ao <;> decide
  · cases co <;> cases ao <;> decide
  · intro f
    obtain ⟨c, a, p, co, ao⟩ := f
    cases c <;> cases a <;> cases p <;> cases co <;> cases ao <;> decide

/-- C6 witness: instance at a disconnected, fully remembered session with
a succeeding transport. -/
theorem c6_witness :
    (((send_command_run ⟨false, true, true, true, true⟩).1.count Action.connect = 1 ∧
      (send_command_run ⟨false, true, true, true, true⟩).1.count Action.authorizeCmd ≤ 1 ∧
      ((⟨false, true, true, true, true⟩ : Env).connect_ok = true →
        (send_command_run ⟨false, true, true, true, true⟩).1.count Action.authorizeCmd = 1)) ∧
     ((send_command_run ⟨false, true, true, true, true⟩).2 = true →
       (send_command_run ⟨false, true, true, true, true⟩).1 =
         [Action.reset, Action.connect, Action.authorizeCmd, Action.writeCmd]) ∧
     ((send_command_run ⟨false, true, true, true, true⟩).2 = false →
       (send_command_run ⟨false, true, true, true, true⟩).1.count Action.writeCmd = 0) ∧
     (∀ f : Env, (send_command_run f).1.count Action.connect ≤ 1 ∧
       (send_command_run f).1.count Action.writeCmd ≤ 1)) :=
  c6_single_reconnect ⟨false, true, true, true, true⟩ rfl rfl rfl

/-- C7 counterexample: a previously remembered PIN (1234) and a reply of
the wrong kind (a power-switch notification): `authorize` fails, but the
remembered PIN is *not* cleared, contradicting the claim that every
failure clears it. -/
theorem c7_counterexample :
    (authorize 2026 (some 1234) 99 [[0x0f, 4, 3, 0, 0, 4, 0xff, 0xff]]).1 = some 1234 ∧
    (authorize 2026 (some 1234) 99 [[0x0f, 4, 3, 0, 0, 4, 0xff, 0xff]]).2 =
      .error SemError.authenticationFailed := by
  decide

/-- C7 (amended): on a successful authorization reply the PIN is
remembered; on an unsuccessful authorization reply the remembered PIN is
cleared and the call fails; on a reply of the wrong notification kind the
call fails but the previously remembered PIN is left unchanged; a
delegate failure also leaves it unchanged. -/
theorem c7_authorize_pin_discipline (nowYear : Nat) (old_pin : Option Nat) (pin : Nat)
    (frags : List (List Nat)) :
    (∀ ws, (consume_notification nowYear frags).2 = .ok (.authorization ws) →
      authorize nowYear old_pin pin frags =
        if ws then (some pin, .ok (.authorization ws))
        else (none, .error SemError.authenticationFailed)) ∧
    (∀ n, (consume_notification nowYear frags).2 = .ok n →
      (∀ ws, n ≠ .authorization ws) →
      authorize nowYear old_pin pin frags = (old_pin, .error SemError.authenticationFailed)) ∧
    (∀ e, (consume_notification nowYear frags).2 = .error e →
      authorize nowYear old_pin pin frags = (old_pin, .error (SemError.parseFailed e))) := by
  refine ⟨?_, ?_, ?_⟩
  · intro ws h
    cases ws <;> simp [authorize, h]
  · intro n h hn
    cases n
    case authorization ws => exact absurd rfl (hn ws)
    all_goals simp [authorize, h]
  · intro e h
    simp [authorize, h]

/-- C7 witness: an unsuccessful authorization reply clears the remembered
PIN and fails. -/
theorem c7_witness :
    authorize 2026 (some 11) 42 [[0x0f, 6, 0x17, 0, 1, 0, 0, 25, 0xff, 0xff]] =
      (none, .error SemError.authenticationFailed) := by
  have h := (c7_authorize_pin_discipline 2026 (some 11) 42
    [[0x0f, 6, 0x17, 0, 1, 0, 0, 25, 0xff, 0xff]]).1 false (by decide)
  simpa using h

/-- C9: every call of `edit_scheduler` fails while building the command —
the build path ends at the undefined name `tuil` when it is not aborted
earlier by one of the conversion helpers — so no input makes it perform a
transport write or return a notification. -/
theorem c9_edit_scheduler_always_fails
    (fromiso : String → Except SemError PyDateTime)
    (mk_dt : Nat → Nat → Nat → Nat → Nat → Except SemError PyDateTime)
    (to_int : String → Except SemError Int)
    (parse_boolean : String → Except SemError Bool)
    (reply : Notification) (slot_id is_active is_action_turn_on week_days iso : String) :
    (edit_scheduler fromiso mk_dt to_int parse_boolean reply
        slot_id is_active is_action_turn_on week_days iso).1 = 0 ∧
    ∃ e, (edit_scheduler fromiso mk_dt to_int parse_boolean reply
        slot_id is_active is_action_turn_on week_days iso).2 = .error e := by
  have hb : ∃ e, edit_scheduler_build fromiso mk_dt to_int parse_boolean
      slot_id is_active is_action_turn_on iso = .error e := by
    rcases h1 : fromiso iso with e | dt
    · exact ⟨e, by simp [edit_scheduler_build, h1]⟩
    rcases h2 : mk_dt (dt.year % 100) dt.month dt.day dt.hour dt.minute with e | d2
    · exact ⟨e, by simp [edit_scheduler_build, h1, h2]⟩
    rcases h3 : to_int slot_id with e | s
    · exact ⟨e, by simp [edit_scheduler_build, h1, h2, h3]⟩
    rcases h4 : parse_boolean is_active with e | b1
    · exact ⟨e, by simp [edit_scheduler_build, h1, h2, h3, h4]⟩
    rcases h5 : parse_boolean is_action_turn_on with e | b2
    · exact ⟨e, by simp [edit_scheduler_build, h1, h2, h3, h4, h5]⟩
    exact ⟨SemError.nameError "tuil", by simp [edit_scheduler_build, h1, h2, h3, h4, h5]⟩
  obtain ⟨e, he⟩ := hb
  exact ⟨by simp [edit_scheduler, he], ⟨e, by simp [edit_scheduler, he]⟩⟩

/-- C10: `consume_notification` leaves the accumulated fragment buffer
unchanged whenever it fails (incomplete data, unwrap error, or decode
error) and empties it exactly on a successful parse; the reset performed
at the start of every send clears it. -/
theorem c10_consume_buffer_discipline (nowYear : Nat) (frags : List (List Nat)) :
    (∀ e, (consume_notification nowYear frags).2 = .error e →
      (consume_notification nowYear frags).1 = frags) ∧
    (∀ n, (consume_notification nowYear frags).2 = .ok n →
      (consume_notification nowYear frags).1 = []) ∧
    reset_notification_data frags = [] := by
  unfold consume_notification
  by_cases hf : has_final_raw_notification frags
  · simp only [hf, if_true]
    rcases hp : parse nowYear frags.flatten with e | n <;>
      simp [hp, reset_notification_data]
  · simp [hf, reset_notification_data]

/-- C10 witness: a single 1-byte fragment is incomplete; the buffer is
left unchanged. -/
theorem c10_witness :
    (consume_notification 2026 [[0x0f]]).1 = [[0x0f]] :=
  (c10_consume_buffer_discipline 2026 [[0x0f]]).1 ParseError.incompleteData (by decide)

theorem request_scheduler_loop_ok (reply : Nat → Notification) (nOf : Nat → Nat)
    (esOf : Nat → List SchedulerEntry)
    (h : ∀ p, reply p = .schedulerRequested (nOf p) (esOf p))
    (acc : List SchedulerEntry) (pages : List Nat) :
    request_scheduler_loop reply acc pages = (pages, .ok (acc ++ (pages.map esOf).flatten)) := by
  induction pages generalizing acc with
  | nil => simp [request_scheduler_loop]
  | cons p rest ih => simp [request_scheduler_loop, h p, ih]

/-- C1 counterexample: with `number_of_schedulers = 4` (and every page
answered by a well-kinded scheduler reply) the engine issues 1 further
page request after page 0, but the claim's formula demands
`ceil(4/4) - 1 = 0` further requests. -/
theorem c1_counterexample :
    (request_scheduler (fun _ => Notification.schedulerRequested 4 [])).1.length - 1 = 1 ∧
    (4 + 3) / 4 - 1 ≠ 1 := by
  decide

/-- C1 (amended): when every page is answered by a scheduler reply, the
engine requests exactly pages `0 .. n/4` where `n` is the
`number_of_schedulers` declared by the reply to page 0 — i.e. exactly
`floor(n/4)` further requests after page 0, which equals `ceil(n/4) - 1`
whenever `n` is not a positive multiple of 4 (in particular 3 total page
requests, pages 0, 1, 2, for `n = 10`) — and returns `n` together with
the concatenation of all pages' scheduler entries in request order. -/
theorem c1_request_scheduler_pages (reply : Nat → Notification) (nOf : Nat → Nat)
    (esOf : Nat → List SchedulerEntry)
    (h : ∀ p, reply p = .schedulerRequested (nOf p) (esOf p)) :
    request_scheduler reply =
      (List.range (nOf 0 / 4 + 1),
       .ok (nOf 0, ((List.range (nOf 0 / 4 + 1)).map esOf).flatten)) := by
  simp only [request_scheduler, h 0]
  rw [request_scheduler_loop_ok reply nOf esOf h]
  simp [List.range_succ_eq_map, List.map_map, Function.comp, Nat.succ_eq_add_one]

/-- C1 witness: for `number_of_schedulers = 10` the pages requested are
exactly 0, 1, 2, in this order. -/
theorem c1_witness :
    request_scheduler (fun _ => Notification.schedulerRequested 10 []) =
      ([0, 1, 2], .ok (10, [])) :=
  c1_request_scheduler_pages (fun _ => .schedulerRequested 10 []) (fun _ => 10)
    (fun _ => []) (fun _ => rfl)

theorem parse_settings_not_consumption (p : List Nat) (vals : List (Option Nat)) :
    parse_settings p ≠ .ok (.consumption12Months vals) ∧
    parse_settings p ≠ .ok (.consumption30Days vals) := by
  unfold parse_settings; split <;> exact ⟨by simp, by simp⟩

theorem parse_timer_status_not_consumption (p : List Nat) (vals : List (Option Nat)) :
    parse_timer_status p ≠ .ok (.consumption12Months vals) ∧
    parse_timer_status p ≠ .ok (.consumption30Days vals) := by
  unfold parse_timer_status; split <;> exact ⟨by simp, by simp⟩

theorem parse_scheduler_page_not_consumption (nowYear : Nat) (p : List Nat)
    (vals : List (Option Nat)) :
    parse_scheduler_page nowYear p ≠ .ok (.consumption12Months vals) ∧
    parse_scheduler_page nowYear p ≠ .ok (.consumption30Days vals) := by
  unfold parse_scheduler_page; split_ifs <;> exact ⟨by simp, by simp⟩

theorem parse_random_mode_status_not_consumption (p : List Nat) (vals : List (Option Nat)) :
    parse_random_mode_status p ≠ .ok (.consumption12Months vals) ∧
    parse_random_mode_status p ≠ .ok (.consumption30Days vals) := by
  unfold parse_random_mode_status; exact ⟨by simp, by simp⟩

theorem parse_measurement_not_consumption (p : List Nat) (vals : List (Option Nat)) :
    parse_measurement p ≠ .ok (.consumption12Months vals) ∧
    parse_measurement p ≠ .ok (.consumption30Days vals) := by
  unfold parse_measurement; exact ⟨by simp, by simp⟩

theorem parse_consumption23_not_consumption (p : List Nat) (vals : List (Option Nat)) :
    parse_consumption23 p ≠ .ok (.consumption12Months vals) ∧
    parse_consumption23 p ≠ .ok (.consumption30Days vals) := by
  unfold parse_consumption23; exact ⟨by simp, by simp⟩

theorem parse_consumption12_not30 (p : List Nat) (vals : List (Option Nat)) :
    parse_consumption12 p ≠ .ok (.consumption30Days vals) := by
  unfold parse_consumption12; simp

theorem parse_consumption30_not12 (p : List Nat) (vals : List (Option Nat)) :
    parse_consumption30 p ≠ .ok (.consumption12Months vals) := by
  unfold parse_consumption30; simp

theorem parse_consumption12_head (p : List Nat) (vals : List (Option Nat))
    (h : parse_consumption12 p = .ok (.consumption12Months vals)) :
    vals.head? = some none := by
  unfold parse_consumption12 at h
  injection h with h2; injection h2 with h3; rw [← h3]; rfl

theorem parse_consumption30_head (p : List Nat) (vals : List (Option Nat))
    (h : parse_consumption30 p = .ok (.consumption30Days vals)) :
    vals.head? = some none := by
  unfold parse_consumption30 at h
  injection h with h2; injection h2 with h3; rw [← h3]; rfl

set_option maxHeartbeats 800000 in
theorem dispatch_c_consumption_head (p : List Nat) (vals : List (Option Nat)) :
    (parse_dispatch_c p = .ok (.consumption12Months vals) → vals.head? = some none) ∧
    (parse_dispatch_c p = .ok (.consumption30Days vals) → vals.head? = some none) := by
  constructor <;> intro h <;>
  · unfold parse_dispatch_c at h
    repeat' split at h
    all_goals
      first
        | exact (Except.noConfusion h)
        | (injection h with h2; exact (Notification.noConfusion h2))
        | exact absurd h (parse_measurement_not_consumption p vals).1
        | exact absurd h (parse_measurement_not_consumption p vals).2
        | exact absurd h (parse_consumption23_not_consumption p vals).1
        | exact absurd h (parse_consumption23_not_consumption p vals).2
        | exact absurd h (parse_consumption30_not12 p vals)
        | exact absurd h (parse_consumption12_not30 p vals)
        | exact parse_consumption12_head p vals h
        | exact parse_consumption30_head p vals h

set_option maxHeartbeats 800000 in
theorem dispatch_b_consumption_head (nowYear : Nat) (p : List Nat) (vals : List (Option Nat)) :
    (parse_dispatch_b nowYear p = .ok (.consumption12Months vals) → vals.head? = some none) ∧
    (parse_dispatch_b nowYear p = .ok (.consumption30Days vals) → vals.head? = some none) := by
  constructor <;> intro h <;>
  · unfold parse_dispatch_b at h
    repeat' split at h
    all_goals
      first
        | exact (Except.noConfusion h)
        | (injection h with h2; exact (Notification.noConfusion h2))
        | exact absurd h (parse_timer_status_not_consumption p vals).1
        | exact absurd h (parse_timer_status_not_consumption p vals).2
        | exact absurd h (parse_scheduler_page_not_consumption nowYear p vals).1
        | exact absurd h (parse_scheduler_page_not_consumption nowYear p vals).2
        | exact absurd h (parse_random_mode_status_not_consumption p vals).1
        | exact absurd h (parse_random_mode_status_not_consumption p vals).2
        | exact (dispatch_c_consumption_head p vals).1 h
        | exact (dispatch_c_consumption_head p vals).2 h

set_option maxHeartbeats 800000 in
theorem dispatch_consumption_head (nowYear : Nat) (p : List Nat) (vals : List (Option Nat)) :
    (parse_dispatch nowYear p = .ok (.consumption12Months vals) → vals.head? = some none) ∧
    (parse_dispatch nowYear p = .ok (.consumption30Days vals) → vals.head? = some none) := by
  constructor <;> intro h <;>
  · unfold parse_dispatch at h
    repeat' split at h
    all_goals
      first
        | exact (Except.noConfusion h)
        | (injection h with h2; exact (Notification.noConfusion h2))
        | exact absurd h (parse_settings_not_consumption p vals).1
        | exact absurd h (parse_settings_not_consumption p vals).2
        | exact (dispatch_b_consumption_head nowYear p vals).1 h
        | exact (dispatch_b_consumption_head nowYear p vals).2 h

/-- C2 counterexample: a complete, checksum-valid 23-hours consumption
frame with one 2-byte entry decodes to a sequence whose index 0 is
`some 5`, not `None` — the 23-hours reply does not get a `None`
prepended, contradicting the claim that all three consumption series
have `None` at index 0. -/
theorem c2_counterexample :
    parse 2026 [0x0f, 5, 0x0a, 0, 0, 5, 16, 0xff, 0xff] =
      .ok (.consumption23Hours [some 5]) ∧
    ([some 5] : List (Option Nat)).head? ≠ some none := by
  decide

/-- C2 (amended): for the 12-months and the 30-days consumption replies,
every successful decode yields a sequence whose most recent slot (index
0) is `None`; the 23-hours reply has no such slot. -/
theorem c2_consumption_head_none (nowYear : Nat) (data : List Nat) (vals : List (Option Nat))
    (h : parse nowYear data = .ok (.consumption12Months vals) ∨
         parse nowYear data = .ok (.consumption30Days vals)) :
    vals.head? = some none := by
  rcases hp : parse_payload data with e | payload
  · rcases h with h | h <;> simp [parse, hp] at h
  · rcases h with h | h
    · exact (dispatch_consumption_head nowYear payload vals).1 (by simpa [parse, hp] using h)
    · exact (dispatch_consumption_head nowYear payload vals).2 (by simpa [parse, hp] using h)

/-- C2 witness: a 12-months frame with zero transmitted entries decodes
to the one-element sequence `[None]`. -/
theorem c2_witness : ([none] : List (Option Nat)).head? = some none :=
  c2_consumption_head_none 2026 [0x0f, 3, 0x0c, 0, 13, 0xff, 0xff] [none] (Or.inl (by decide))

theorem sliceL_cons2_shift (a b : Nat) (l : List Nat) (i : Nat) :
    sliceL (a :: b :: l) (2 + 4 * i) (2 + 4 * i + 3) = sliceL l (4 * i) (4 * i + 3) := by
  have h : 2 + 4 * i + 3 = 2 + (4 * i + 3) := by omega
  rw [h, sliceL_cons2]

theorem map_range_blocks4 (blocks : List (List Nat)) (hb : ∀ b ∈ blocks, b.length = 4) :
    (List.range blocks.length).map
        (fun i => some (int_from_bytes_be (sliceL blocks.flatten (4 * i) (4 * i + 3))))
      = blocks.map (fun b => some (int_from_bytes_be (b.take 3))) := by
  induction blocks with
  | nil => rfl
  | cons b rest ih =>
    have hbl : b.length = 4 := hb b (List.mem_cons_self b rest)
    have hrest : ∀ x ∈ rest, x.length = 4 := fun x hx => hb x (List.mem_cons_of_mem _ hx)
    rw [List.length_cons, List.range_succ_eq_map, List.map_cons, List.map_map, List.map_cons,
      List.flatten_cons]
    congr 1
    · rw [show (4 * 0 : Nat) = 0 by omega, show (4 * 0 + 3 : Nat) = 3 by omega, sliceL_zero,
        take_append_le b rest.flatten 3 (by omega)]
    · rw [← ih hrest]
      apply List.map_congr_left
      intro i _
      simp only [Function.comp_apply, Nat.succ_eq_add_one]
      have e2 : 4 * (i + 1) + 3 = 4 + (4 * i + 3) := by omega
      have e1 : 4 * (i + 1) = 4 + 4 * i := by omega
      rw [e2, e1, sliceL_skip_block b rest.flatten 4 hbl]

theorem dispatch_c12_select (nowYear : Nat) (t : List Nat) :
    parse_dispatch nowYear (0x0c :: 0x00 :: t) = parse_consumption12 (0x0c :: 0x00 :: t) := by
  have e2 : sliceL (0x0c :: 0x00 :: t) 0 2 = [0x0c, 0x00] := rfl
  have e3 : sliceL (0x0c :: 0x00 :: t) 0 3 = 0x0c :: 0x00 :: t.take 1 := rfl
  simp [parse_dispatch, parse_dispatch_b, parse_dispatch_c, e2, e3]

/-- C5: a 12-months consumption payload carrying eleven 4-byte entries
decodes to a 12-element sequence: `None` first, then the big-endian
3-byte values of the transmitted entries in reverse transmission
order. -/
theorem c5_consumption12_decode (nowYear : Nat) (blocks : List (List Nat))
    (_hn : blocks.length = 11) (hb : ∀ b ∈ blocks, b.length = 4) :
    parse_dispatch nowYear (0x0c :: 0x00 :: blocks.flatten) =
      .ok (.consumption12Months
        (none :: blocks.reverse.map (fun b => some (int_from_bytes_be (b.take 3))))) := by
  rw [dispatch_c12_select]
  unfold parse_consumption12
  have hflat : blocks.flatten.length = 4 * blocks.length := flatten_length_const 4 blocks hb
  have hk : ((0x0c :: 0x00 :: blocks.flatten).length - 2) / 4 = blocks.length := by
    simp [hflat]
  rw [hk]
  simp only [sliceL_cons2_shift]
  rw [map_range_blocks4 blocks hb, List.map_reverse]

/-- C5 witness: eleven concrete entries `00 00 k 09` decode to
`[None, 11, 10, ..., 1]` watt-hours. -/
theorem c5_witness :
    parse_dispatch 2026 (0x0c :: 0x00 ::
      ([[0, 0, 1, 9], [0, 0, 2, 9], [0, 0, 3, 9], [0, 0, 4, 9], [0, 0, 5, 9], [0, 0, 6, 9],
        [0, 0, 7, 9], [0, 0, 8, 9], [0, 0, 9, 9], [0, 0, 10, 9], [0, 0, 11, 9]] :
        List (List Nat)).flatten) =
      .ok (.consumption12Months
        [none, some 11, some 10, some 9, some 8, some 7, some 6, some 5, some 4,
         some 3, some 2, some 1]) :=
  c5_consumption12_decode 2026
    [[0, 0, 1, 9], [0, 0, 2, 9], [0, 0, 3, 9], [0, 0, 4, 9], [0, 0, 5, 9], [0, 0, 6, 9],
     [0, 0, 7, 9], [0, 0, 8, 9], [0, 0, 9, 9], [0, 0, 10, 9], [0, 0, 11, 9]]
    (by decide) (by decide)

theorem sliceL_cons3_shift1 (a b c : Nat) (l : List Nat) (i : Nat) :
    sliceL (a :: b :: c :: l) (3 + 12 * i) (4 + 12 * i) = sliceL l (12 * i) (12 * i + 1) := by
  have h : 4 + 12 * i = 3 + (12 * i + 1) := by omega
  rw [h, sliceL_cons3]

theorem sliceL_cons3_shift8 (a b c : Nat) (l : List Nat) (i : Nat) :
    sliceL (a :: b :: c :: l) (4 + 12 * i) (12 + 12 * i) = sliceL l (12 * i + 1) (12 * i + 9) := by
  have h1 : 4 + 12 * i = 3 + (12 * i + 1) := by omega
  have h2 : 12 + 12 * i = 3 + (12 * i + 9) := by omega
  rw [h1, h2, sliceL_cons3]

theorem map_range_blocks12 (nowYear : Nat) (blocks : List (List Nat))
    (hb : ∀ b ∈ blocks, b.length = 12) :
    (List.range blocks.length).map (fun i =>
        SchedulerEntry.mk (int_from_bytes_be (sliceL blocks.flatten (12 * i) (12 * i + 1)))
          (parse_scheduler nowYear (sliceL blocks.flatten (12 * i + 1) (12 * i + 9))))
      = blocks.map (fun b =>
        SchedulerEntry.mk (int_from_bytes_be (b.take 1))
          (parse_scheduler nowYear (sliceL b 1 9))) := by
  induction blocks with
  | nil => rfl
  | cons b rest ih =>
    have hbl : b.length = 12 := hb b (List.mem_cons_self b rest)
    have hrest : ∀ x ∈ rest, x.length = 12 := fun x hx => hb x (List.mem_cons_of_mem _ hx)
    rw [List.length_cons, List.range_succ_eq_map, List.map_cons, List.map_map, List.map_cons,
      List.flatten_cons]
    congr 1
    · rw [show (12 * 0 : Nat) = 0 by omega, show (12 * 0 + 1 : Nat) = 1 by omega,
        show (12 * 0 + 9 : Nat) = 9 by omega]
      congr 1
      · rw [sliceL_zero, take_append_le b rest.flatten 1 (by omega)]
      · congr 1
        unfold sliceL
        rw [drop_append_le b rest.flatten 1 (by omega),
          take_append_le (b.drop 1) rest.flatten (9 - 1)
            (by rw [List.length_drop, hbl]; omega)]
    · rw [← ih hrest]
      apply List.map_congr_left
      intro i _
      simp only [Function.comp_apply, Nat.succ_eq_add_one]
      have e3 : 12 * (i + 1) + 9 = 12 + (12 * i + 9) := by omega
      have e2 : 12 * (i + 1) + 1 = 12 + (12 * i + 1) := by omega
      have e1 : 12 * (i + 1) = 12 + 12 * i := by omega
      rw [e3, e2, e1, sliceL_skip_block b rest.flatten 12 hbl,
        sliceL_skip_block b rest.flatten 12 hbl]

theorem dispatch_scheduler_select (nowYear n : Nat) (t : List Nat) :
    parse_dispatch nowYear (0x14 :: 0x00 :: n :: t) =
      parse_scheduler_page nowYear (0x14 :: 0x00 :: n :: t) := by
  have e2 : sliceL (0x14 :: 0x00 :: n :: t) 0 2 = [0x14, 0x00] := rfl
  have e3 : sliceL (0x14 :: 0x00 :: n :: t) 0 3 = [0x14, 0x00, n] := rfl
  simp [parse_dispatch, parse_dispatch_b, e2, e3]

/-- C8: decoding a scheduler page never conditions on the per-entry
checksum bytes: for every page of 12-byte entries — in particular those
whose checksum byte at offset 11 disagrees with
`(sum(payload[4+12i:14+12i]) + 0x14) % 256` — parsing succeeds and every
entry is still decoded and included in `scheduler_entries`, in order. -/
theorem c8_scheduler_page_checksum_nonfatal (nowYear n : Nat) (blocks : List (List Nat))
    (hb : ∀ b ∈ blocks, b.length = 12) :
    parse_dispatch nowYear (0x14 :: 0x00 :: n :: blocks.flatten) =
      .ok (.schedulerRequested n (blocks.map (fun b =>
        SchedulerEntry.mk (int_from_bytes_be (b.take 1))
          (parse_scheduler nowYear (sliceL b 1 9))))) := by
  rw [dispatch_scheduler_select]
  unfold parse_scheduler_page
  have hflat : blocks.flatten.length = 12 * blocks.length := flatten_length_const 12 blocks hb
  have h1 : ¬ ((0x14 :: 0x00 :: n :: blocks.flatten).length < 3) := by
    simp only [List.length_cons, hflat]; omega
  have h2 : ((0x14 :: 0x00 :: n :: blocks.flatten).length - 3) % 12 = 0 := by
    simp only [List.length_cons, hflat]; omega
  have hk : ((0x14 :: 0x00 :: n :: blocks.flatten).length - 3) / 12 = blocks.length := by
    simp only [List.length_cons, hflat]; omega
  have hnum : int_from_bytes_be (sliceL (0x14 :: 0x00 :: n :: blocks.flatten) 2 3) = n := by
    rw [show sliceL (0x14 :: 0x00 :: n :: blocks.flatten) 2 3 = [n] from rfl,
      int_from_bytes_be_single]
  rw [if_neg h1, if_neg (fun hne => hne h2), hk, hnum]
  simp only [sliceL_cons3_shift1, sliceL_cons3_shift8]
  rw [map_range_blocks12 nowYear blocks hb]

/-- C8 witness: a page with one entry whose received checksum byte (0)
disagrees with the computed per-entry checksum (77); the entry is still
decoded and returned. -/
theorem c8_witness :
    scheduler_entry_checksum_received
        ([0x14, 0, 1] ++ [7, 1, 1, 3, 26, 5, 6, 7, 8, 0, 0, 0]) 0 ≠
      scheduler_entry_checksum ([0x14, 0, 1] ++ [7, 1, 1, 3, 26, 5, 6, 7, 8, 0, 0, 0]) 0 ∧
    parse_dispatch 2026 ([0x14, 0, 1] ++ [7, 1, 1, 3, 26, 5, 6, 7, 8, 0, 0, 0]) =
      .ok (.schedulerRequested 1
        [SchedulerEntry.mk 7 (Scheduler.mk true true [0, 1] 2026 5 6 7 8)]) :=
  ⟨by decide,
    c8_scheduler_page_checksum_nonfatal 2026 1 [[7, 1, 1, 3, 26, 5, 6, 7, 8, 0, 0, 0]]
      (by decide)⟩

end Sem6000
